import Mathlib

/-!
Shallow embedding of the dynasty league-intel analysis core
(src/lib/analysis/strategy.ts, src/lib/analysis/positions.ts,
src/lib/analysis/trade-ideas.ts, src/lib/analysis/draft-capital.ts,
src/lib/league-config.ts) together with theorems checking the
specification claims about it.

Modelling conventions: JavaScript numbers are embedded as ℤ where the
source only ever holds integer counts and as ℚ where fractional values
occur (ages, confidences, multipliers); nullable fields become Option;
the async database lookups of generateTradeIdeas are embedded by passing
the lookup results in as parameters; rationale and reason strings, which
no claim is about, are not modelled.
-/

set_option linter.unusedVariables false

/-- Decidable equality on Except, used to evaluate the embedded
generateTradeIdeas at concrete inputs. -/
instance instDecEqExcept {ε α : Type} [DecidableEq ε] [DecidableEq α] :
    DecidableEq (Except ε α) := fun a b =>
  match a, b with
  | .error x, .error y =>
    if h : x = y then .isTrue (congrArg Except.error h)
    else .isFalse (fun hc => h (Except.error.inj hc))
  | .ok x, .ok y =>
    if h : x = y then .isTrue (congrArg Except.ok h)
    else .isFalse (fun hc => h (Except.ok.inj hc))
  | .error _, .ok _ => .isFalse (fun hc => Except.noConfusion hc)
  | .ok _, .error _ => .isFalse (fun hc => Except.noConfusion hc)

namespace Dynasty

/-- Strategy labels, from src/unnamed/part_018 (types): StrategyLabel. -/
inductive StrategyLabel where
  | REBUILD
  | CONTEND
  | TINKER
  | INACTIVE
  | PENDING
deriving DecidableEq

/-- Positional states, from the types file: PositionalState. -/
inductive PositionalState where
  | DESPERATE
  | THIN
  | STABLE
  | HOARDING
deriving DecidableEq

/-- Aggregated team behaviour signals (types file, StrategySignals). -/
structure StrategySignals where
  totalMoves30d : ℤ
  avgAgeAdded30d : Option ℚ
  avgAgeDropped30d : Option ℚ
  rosterAvgAge : Option ℚ
  daysSinceLastActivity : Option ℤ
deriving DecidableEq

/-- Classification result (types file, StrategyClassification); the
reason string is not modelled. -/
structure StrategyClassification where
  label : StrategyLabel
  confidence : ℚ
deriving DecidableEq

/-- Embeds the repeated JS pattern `x !== null && x >= k` used on
daysSinceLastActivity in strategy.ts. -/
def daysAtLeast (d : Option ℤ) (k : ℤ) : Prop :=
  match d with
  | some v => k ≤ v
  | none => False

instance (d : Option ℤ) (k : ℤ) : Decidable (daysAtLeast d k) :=
  match d with
  | some v => inferInstanceAs (Decidable (k ≤ v))
  | none => inferInstanceAs (Decidable False)

/-- classifyTeamStrategy, src/lib/analysis/strategy.ts lines 26-131. -/
def classifyTeamStrategy (signals : StrategySignals) : StrategyClassification :=
  if signals.totalMoves30d = 0 then
    if daysAtLeast signals.daysSinceLastActivity 180 then
      { label := .INACTIVE, confidence := 0.9 }
    else
      { label := .INACTIVE, confidence := 0.7 }
  else if signals.totalMoves30d ≤ 2 ∧ daysAtLeast signals.daysSinceLastActivity 240 then
    { label := .INACTIVE, confidence := 0.8 }
  else
    match signals.avgAgeAdded30d, signals.avgAgeDropped30d with
    | some avgAgeAdded30d, some avgAgeDropped30d =>
      if avgAgeAdded30d ≤ 24 ∧ 26 ≤ avgAgeDropped30d then
        { label := .REBUILD
          confidence := min (0.7 + (avgAgeDropped30d - avgAgeAdded30d) * 0.05) 0.95 }
      else if avgAgeAdded30d ≤ 23 ∧ 3 ≤ signals.totalMoves30d then
        { label := .REBUILD, confidence := 0.65 }
      else if 26 ≤ avgAgeAdded30d ∧ avgAgeDropped30d ≤ 24 then
        { label := .CONTEND
          confidence := min (0.7 + (avgAgeAdded30d - avgAgeDropped30d) * 0.05) 0.95 }
      else if 27 ≤ avgAgeAdded30d ∧ 3 ≤ signals.totalMoves30d then
        { label := .CONTEND, confidence := 0.65 }
      else if 8 ≤ signals.totalMoves30d then
        { label := .TINKER, confidence := 0.7 }
      else
        { label := .TINKER, confidence := 0.6 }
    | _, _ => { label := .TINKER, confidence := 0.5 }

/-- Starter slot counts (league-config.ts, LeagueConfig.starters). -/
structure StarterCounts where
  QB : ℤ
  RB : ℤ
  WR : ℤ
  TE : ℤ
  FLEX : ℤ
  SUPERFLEX : ℤ
  WRRB_FLEX : ℤ
  REC_FLEX : ℤ
deriving DecidableEq

/-- Scoring format flags (league-config.ts, LeagueConfig.scoringFormat). -/
structure ScoringFormat where
  ppr : ℚ
  isPPR : Bool
  isSuperflex : Bool
  isTEPremium : Bool
deriving DecidableEq

/-- Per-position requirement (league-config.ts, PositionalRequirement). -/
structure PositionalRequirement where
  minStarters : ℤ
  maxStarters : ℤ
  recommendedDepth : ℤ
  scarcityMultiplier : ℚ
deriving DecidableEq

/-- The four tracked positions (the union type QB | RB | WR | TE). -/
inductive Pos4 where
  | QB
  | RB
  | WR
  | TE
deriving DecidableEq

/-- Derived positional requirements (league-config.ts, LeagueConfig.positionalNeeds). -/
structure PositionalNeedsConfig where
  QB : PositionalRequirement
  RB : PositionalRequirement
  WR : PositionalRequirement
  TE : PositionalRequirement
deriving DecidableEq

/-- Field access config.positionalNeeds[position]. -/
def PositionalNeedsConfig.get (needs : PositionalNeedsConfig) : Pos4 → PositionalRequirement
  | .QB => needs.QB
  | .RB => needs.RB
  | .WR => needs.WR
  | .TE => needs.TE

/-- Normalized league configuration (league-config.ts, LeagueConfig). -/
structure LeagueConfig where
  numTeams : ℤ
  rosterSize : ℤ
  taxiSlots : ℤ
  reserveSlots : ℤ
  starters : StarterCounts
  benchSlots : ℤ
  scoringFormat : ScoringFormat
  positionalNeeds : PositionalNeedsConfig
deriving DecidableEq

/-- Raw league record handed to parseLeagueConfig (its parameter type). -/
structure RawLeague where
  numTeams : ℤ
  rosterPositions : Option (List String)
  scoringSettings : Option (List (String × ℚ))
  rosterSize : Option ℤ
  taxiSlots : Option ℤ
  reserveSlots : Option ℤ

/-- Embeds the JS `x || y` fallback on an optional number: null,
undefined and 0 all fall through to the fallback. -/
def jsOrInt (x : Option ℤ) (y : ℤ) : ℤ :=
  match x with
  | some v => if v = 0 then y else v
  | none => y

/-- Counts exact slot-type matches: positions.filter(p => p === slot).length. -/
def countEq (positions : List String) (slot : String) : ℤ :=
  ((positions.filter (fun p => p = slot)).length : ℤ)

/-- calculateQBRequirement, league-config.ts lines 118-138. -/
def calculateQBRequirement (starters : StarterCounts) (scoring : ScoringFormat)
    (numTeams : ℤ) : PositionalRequirement :=
  let minStarters := starters.QB
  let maxStarters := starters.QB + (if scoring.isSuperflex then starters.SUPERFLEX else 0)
  let recommendedDepth := if scoring.isSuperflex then maxStarters + 1 else minStarters + 1
  let scarcityMultiplier : ℚ := if scoring.isSuperflex then 1.8 else 1.0
  { minStarters, maxStarters, recommendedDepth, scarcityMultiplier }

/-- calculateRBRequirement, league-config.ts lines 143-167. -/
def calculateRBRequirement (starters : StarterCounts) (scoring : ScoringFormat)
    (numTeams : ℤ) : PositionalRequirement :=
  let minStarters := starters.RB
  let flexCount := starters.FLEX + starters.WRRB_FLEX +
    (if scoring.isSuperflex then starters.SUPERFLEX else 0)
  let expectedFlexRBs := ⌊(flexCount : ℚ) * (if scoring.isPPR then 0.5 else 0.6)⌋
  let maxStarters := minStarters + expectedFlexRBs
  let recommendedDepth := max (maxStarters * 2) (minStarters + 4)
  let scarcityMultiplier : ℚ :=
    if 14 ≤ numTeams then 1.3 else if 12 ≤ numTeams then 1.1 else 1.0
  { minStarters, maxStarters, recommendedDepth, scarcityMultiplier }

/-- calculateWRRequirement, league-config.ts lines 172-196. -/
def calculateWRRequirement (starters : StarterCounts) (scoring : ScoringFormat)
    (numTeams : ℤ) : PositionalRequirement :=
  let minStarters := starters.WR
  let flexCount := starters.FLEX + starters.WRRB_FLEX + starters.REC_FLEX +
    (if scoring.isSuperflex then starters.SUPERFLEX else 0)
  let expectedFlexWRs := ⌊(flexCount : ℚ) * (if scoring.isPPR then 0.7 else 0.4)⌋
  let maxStarters := minStarters + expectedFlexWRs
  let recommendedDepth := max ⌊(maxStarters : ℚ) * 1.5⌋ (minStarters + 3)
  let scarcityMultiplier : ℚ := if scoring.isPPR then 0.9 else 1.0
  { minStarters, maxStarters, recommendedDepth, scarcityMultiplier }

/-- calculateTERequirement, league-config.ts lines 201-225. -/
def calculateTERequirement (starters : StarterCounts) (scoring : ScoringFormat)
    (numTeams : ℤ) : PositionalRequirement :=
  let minStarters := starters.TE
  let flexCount := starters.FLEX + starters.REC_FLEX +
    (if scoring.isSuperflex then starters.SUPERFLEX else 0)
  let expectedFlexTEs := if scoring.isTEPremium then ⌊(flexCount : ℚ) * 0.2⌋ else 0
  let maxStarters := minStarters + expectedFlexTEs
  let recommendedDepth := if scoring.isTEPremium then maxStarters + 2 else minStarters + 1
  let scarcityMultiplier : ℚ := if scoring.isTEPremium then 1.4 else 1.0
  { minStarters, maxStarters, recommendedDepth, scarcityMultiplier }

/-- parseLeagueConfig, league-config.ts lines 58-113.  Note the source
counts both SUPER_FLEX and WRRB_FLEX slots into starters.SUPERFLEX. -/
def parseLeagueConfig (league : RawLeague) : LeagueConfig :=
  let positions := league.rosterPositions.getD []
  let scoring := league.scoringSettings.getD []
  let starters : StarterCounts :=
    { QB := countEq positions "QB"
      RB := countEq positions "RB"
      WR := countEq positions "WR"
      TE := countEq positions "TE"
      FLEX := countEq positions "FLEX"
      SUPERFLEX := ((positions.filter
        (fun p => p = "SUPER_FLEX" ∨ p = "WRRB_FLEX")).length : ℤ)
      WRRB_FLEX := countEq positions "WRRB_FLEX"
      REC_FLEX := countEq positions "REC_FLEX" }
  let benchSlots := countEq positions "BN"
  let totalRosterSize := jsOrInt league.rosterSize (jsOrInt (some (positions.length : ℤ)) 20)
  let pprValue := (scoring.lookup "rec").getD 0
  let tePremium := 0 < (scoring.lookup "bonus_rec_te").getD 0
  let scoringFormat : ScoringFormat :=
    { ppr := pprValue
      isPPR := decide ((0.5 : ℚ) ≤ pprValue)
      isSuperflex := decide (0 < starters.SUPERFLEX)
      isTEPremium := decide tePremium }
  let positionalNeeds : PositionalNeedsConfig :=
    { QB := calculateQBRequirement starters scoringFormat league.numTeams
      RB := calculateRBRequirement starters scoringFormat league.numTeams
      WR := calculateWRRequirement starters scoringFormat league.numTeams
      TE := calculateTERequirement starters scoringFormat league.numTeams }
  { numTeams := league.numTeams
    rosterSize := totalRosterSize
    taxiSlots := jsOrInt league.taxiSlots 0
    reserveSlots := jsOrInt league.reserveSlots 0
    starters := starters
    benchSlots := benchSlots
    scoringFormat := scoringFormat
    positionalNeeds := positionalNeeds }

/-- Thresholds returned by getPositionalThresholds. -/
structure PositionThresholds where
  desperateAdds : ℤ
  thinBenchCount : ℤ
  hoardingBenchCount : ℤ
deriving DecidableEq

/-- getPositionalThresholds, league-config.ts lines 232-252.  The source
uses Math.floor on 3 * scarcity and Math.ceil on depth * 1.5. -/
def getPositionalThresholds (position : Pos4) (config : LeagueConfig) : PositionThresholds :=
  let needs := config.positionalNeeds.get position
  { desperateAdds := ⌊(3 : ℚ) * needs.scarcityMultiplier⌋
    thinBenchCount := needs.recommendedDepth
    hoardingBenchCount := ⌈(needs.recommendedDepth : ℚ) * 1.5⌉ }

/-- getPositionValueMultiplier, league-config.ts lines 276-293. -/
def getPositionValueMultiplier (position : Pos4) (config : LeagueConfig) : ℚ :=
  let needs := config.positionalNeeds.get position
  let multiplier := needs.scarcityMultiplier
  if 3 ≤ needs.maxStarters then multiplier * 1.2
  else if needs.maxStarters ≤ 1 then multiplier * 0.8
  else multiplier

/-- Inputs of classifyPositionState (types file, PositionalInputs). -/
structure PositionalInputs where
  position : String
  starters : ℤ
  bench : ℤ
  waiverAdds21d : ℤ
deriving DecidableEq

/-- Embeds the repeated check position === QB | RB | WR | TE that guards
the casts to the four-position union type. -/
def toPos4 : String → Option Pos4
  | "QB" => some .QB
  | "RB" => some .RB
  | "WR" => some .WR
  | "TE" => some .TE
  | _ => none

/-- Threshold selection inside classifyPositionState, positions.ts lines
38-53: dynamic thresholds when a config is provided and the position is
one of the four tracked ones, otherwise the hard-coded defaults. -/
def resolvedThresholds (inputs : PositionalInputs)
    (leagueConfig : Option LeagueConfig) : PositionThresholds :=
  match leagueConfig, toPos4 inputs.position with
  | some config, some p => getPositionalThresholds p config
  | _, _ =>
    { desperateAdds := 3
      thinBenchCount := if inputs.position = "QB" ∨ inputs.position = "TE" then 2 else 4
      hoardingBenchCount := if inputs.position = "QB" ∨ inputs.position = "TE" then 3 else 6 }

/-- classifyPositionState, src/lib/analysis/positions.ts lines 31-77. -/
def classifyPositionState (inputs : PositionalInputs)
    (leagueConfig : Option LeagueConfig) : PositionalState :=
  let totalPlayers := inputs.starters + inputs.bench
  let thresholds := resolvedThresholds inputs leagueConfig
  if thresholds.desperateAdds ≤ inputs.waiverAdds21d then .DESPERATE
  else if totalPlayers < thresholds.thinBenchCount - 1 ∧ 2 ≤ inputs.waiverAdds21d then .DESPERATE
  else if totalPlayers < thresholds.thinBenchCount then .THIN
  else if thresholds.hoardingBenchCount ≤ totalPlayers then .HOARDING
  else .STABLE

/-- A trade suggestion (types file, TradeIdea); the rationale string is
not modelled. -/
structure TradeIdea where
  targetTeamId : String
  targetTeamName : String
  suggestedGivePosition : String
  suggestedGetPosition : String
  confidence : ℚ
deriving DecidableEq

/-- The team fields generateTradeIdeas reads from its database rows. -/
structure LeagueTeam where
  id : String
  displayName : String
  teamName : Option String
  strategyLabel : Option StrategyLabel
  positionalProfile : Option (List (String × PositionalState))

/-- Embeds the JS `x || y` fallback on an optional string: null,
undefined and the empty string all fall through to the fallback
(trade-ideas.ts line 182). -/
def jsOrStr (x : Option String) (y : String) : String :=
  match x with
  | some s => if s = "" then y else s
  | none => y

/-- The league-multiplier confidence adjustment of buildTradeIdea,
trade-ideas.ts lines 226-240. -/
def adjustConfidenceForLeague (confidence : ℚ) (myGivePos myGetPos : String)
    (leagueConfig : Option LeagueConfig) : ℚ :=
  match leagueConfig with
  | none => confidence
  | some config =>
    match toPos4 myGivePos with
    | none => confidence
    | some givePos =>
      let giveMultiplier := getPositionValueMultiplier givePos config
      let getMultiplier :=
        match toPos4 myGetPos with
        | some getPos => getPositionValueMultiplier getPos config
        | none => 1.0
      let confidence :=
        if getMultiplier * 1.2 < giveMultiplier then confidence * 0.95 else confidence
      let confidence :=
        if giveMultiplier * 1.2 < getMultiplier then confidence * 1.05 else confidence
      confidence

/-- buildTradeIdea, src/lib/analysis/trade-ideas.ts lines 162-253. -/
def buildTradeIdea (myTeam otherTeam : LeagueTeam) (myGivePos myGetPos : String)
    (theirNeedState myNeedState : PositionalState) (lesserConfidence : Bool)
    (leagueConfig : Option LeagueConfig) : TradeIdea :=
  let otherTeamName := jsOrStr otherTeam.teamName otherTeam.displayName
  let confidence : ℚ := if lesserConfidence then 0.7 else 0.85
  let confidence := if theirNeedState = .DESPERATE then confidence + 0.1 else confidence
  let confidence := adjustConfidenceForLeague confidence myGivePos myGetPos leagueConfig
  let confidence := min confidence 0.95
  { targetTeamId := otherTeam.id
    targetTeamName := otherTeamName
    suggestedGivePosition := myGivePos
    suggestedGetPosition := myGetPos
    confidence := confidence }

/-- The surplus list built from Object.entries(myNeeds), trade-ideas.ts
lines 85-95: positions whose state is HOARDING, in entry order. -/
def surplusPositions (needs : List (String × PositionalState)) : List String :=
  (needs.filter (fun e => e.2 = .HOARDING)).map Prod.fst

/-- The need list built in the same loop: positions whose state is
DESPERATE or THIN, in entry order. -/
def needPositions (needs : List (String × PositionalState)) : List String :=
  (needs.filter (fun e => e.2 = .DESPERATE ∨ e.2 = .THIN)).map Prod.fst

/-- The per-counterpart matching of trade-ideas.ts lines 107-149: for
each requester-surplus position the counterpart needs, emit the mutual
ideas then, when the counterpart is DESPERATE there, the non-mutual
ideas, preserving push order. -/
def ideasForCounterpart (myTeam otherTeam : LeagueTeam)
    (myNeeds theirNeeds : List (String × PositionalState))
    (mySurplus myNeedsList : List String)
    (leagueConfig : Option LeagueConfig) : List TradeIdea :=
  mySurplus.flatMap (fun myGivePos =>
    match theirNeeds.lookup myGivePos with
    | none => []
    | some theirNeed =>
      if theirNeed = .DESPERATE ∨ theirNeed = .THIN then
        let mutualIdeas := theirNeeds.flatMap (fun e =>
          if e.2 = .HOARDING ∧ e.1 ∈ myNeedsList then
            [buildTradeIdea myTeam otherTeam myGivePos e.1 theirNeed
              ((myNeeds.lookup e.1).getD .STABLE) false leagueConfig]
          else [])
        let desperateIdeas :=
          if theirNeed = .DESPERATE then
            myNeedsList.flatMap (fun myNeedPos =>
              if myNeedPos ≠ myGivePos then
                [buildTradeIdea myTeam otherTeam myGivePos myNeedPos theirNeed
                  ((myNeeds.lookup myNeedPos).getD .STABLE) true leagueConfig]
              else [])
          else []
        mutualIdeas ++ desperateIdeas
      else [])

/-- Descending-confidence comparison used by the final sort,
trade-ideas.ts line 153. -/
def confidenceGE (a b : TradeIdea) : Prop := b.confidence ≤ a.confidence

instance : DecidableRel confidenceGE :=
  fun a b => inferInstanceAs (Decidable (b.confidence ≤ a.confidence))

instance : IsTotal TradeIdea confidenceGE :=
  ⟨fun a b => le_total b.confidence a.confidence⟩

instance : IsTrans TradeIdea confidenceGE :=
  ⟨fun _ _ _ h1 h2 => le_trans h2 h1⟩

/-- The ideas array in the push order of the double loop of
trade-ideas.ts lines 97-150 (the discovery order), before the final
sort: profileless counterpart teams contribute nothing (the continue
of line 99). -/
def discoveredIdeas (myTeam : LeagueTeam)
    (myNeeds : List (String × PositionalState)) (otherTeams : List LeagueTeam)
    (leagueConfig : Option LeagueConfig) : List TradeIdea :=
  otherTeams.flatMap (fun otherTeam =>
    match otherTeam.positionalProfile with
    | none => []
    | some theirNeeds =>
      ideasForCounterpart myTeam otherTeam myNeeds theirNeeds
        (surplusPositions myNeeds) (needPositions myNeeds) leagueConfig)

/-- generateTradeIdeas, src/lib/analysis/trade-ideas.ts lines 34-157.
The two database lookups are embedded as parameters: the requested
team row (none when the identifier does not exist, in which case the
source throws) and the list of the other teams of the league.  The
ECMAScript sort is stable, so it is embedded as a stable insertion
sort on the descending-confidence relation. -/
def generateTradeIdeas (myTeamRow : Option LeagueTeam) (otherTeams : List LeagueTeam)
    (leagueConfig : Option LeagueConfig) : Except String (List TradeIdea) :=
  match myTeamRow with
  | none => .error "Team not found"
  | some myTeam =>
    match myTeam.positionalProfile with
    | none => .ok []
    | some myNeeds =>
      let ideas := discoveredIdeas myTeam myNeeds otherTeams leagueConfig
      .ok ((List.insertionSort confidenceGE ideas).take 10)

/-- The discovery-order idea list for the same inputs generateTradeIdeas
takes: empty on the failure and no-profile paths. -/
def discoveryOrder (myTeamRow : Option LeagueTeam) (otherTeams : List LeagueTeam)
    (leagueConfig : Option LeagueConfig) : List TradeIdea :=
  match myTeamRow with
  | none => []
  | some myTeam =>
    match myTeam.positionalProfile with
    | none => []
    | some myNeeds => discoveredIdeas myTeam myNeeds otherTeams leagueConfig

/-- A draft pick as consumed by analyzeDraftPickTrading. -/
structure DraftPick where
  season : ℤ
  round : ℤ
deriving DecidableEq

/-- Trading pattern tags of draft-capital.ts. -/
inductive TradingPattern where
  | accumulating
  | balanced
  | selling
deriving DecidableEq

/-- Trading strength tags of draft-capital.ts. -/
inductive TradingStrength where
  | strong
  | moderate
  | weak
deriving DecidableEq

/-- Result record of analyzeDraftPickTrading. -/
structure DraftPickTrading where
  picksGained : ℤ
  picksLost : ℤ
  futurePicksGained : ℤ
  futurePicksLost : ℤ
  earlyPicksGained : ℤ
  earlyPicksLost : ℤ
  pattern : TradingPattern
  strength : TradingStrength
deriving DecidableEq

/-- analyzeDraftPickTrading, src/lib/analysis/draft-capital.ts lines
125-188.  Note that the pattern and strength decisions read the raw
(possibly negative) deltas while the returned gained fields are clamped
to zero. -/
def analyzeDraftPickTrading (originalPicks currentPicks : List DraftPick)
    (currentYear : ℤ) : DraftPickTrading :=
  let futureThreshold := currentYear + 2
  let currentFuture := currentPicks.filter
    (fun p => p.season ≤ futureThreshold ∧ currentYear < p.season)
  let originalFuture := originalPicks.filter
    (fun p => p.season ≤ futureThreshold ∧ currentYear < p.season)
  let futurePicksGained : ℤ := (currentFuture.length : ℤ) - (originalFuture.length : ℤ)
  let futurePicksLost : ℤ := if futurePicksGained < 0 then -futurePicksGained else 0
  let currentEarly := currentPicks.filter (fun p => p.round ≤ 2)
  let originalEarly := originalPicks.filter (fun p => p.round ≤ 2)
  let earlyPicksGained : ℤ := (currentEarly.length : ℤ) - (originalEarly.length : ℤ)
  let earlyPicksLost : ℤ := if earlyPicksGained < 0 then -earlyPicksGained else 0
  let picksGained : ℤ := (currentPicks.length : ℤ) - (originalPicks.length : ℤ)
  let picksLost : ℤ := if picksGained < 0 then -picksGained else 0
  let pattern : TradingPattern :=
    if 2 ≤ futurePicksGained ∨ 1 ≤ earlyPicksGained then .accumulating
    else if 2 ≤ futurePicksLost ∨ 1 ≤ earlyPicksLost then .selling
    else .balanced
  let strength : TradingStrength :=
    if pattern = .accumulating then
      if 3 ≤ futurePicksGained then .strong else .moderate
    else if pattern = .selling then
      if 3 ≤ futurePicksLost then .strong else .moderate
    else .weak
  { picksGained := max picksGained 0
    picksLost := picksLost
    futurePicksGained := max futurePicksGained 0
    futurePicksLost := futurePicksLost
    earlyPicksGained := max earlyPicksGained 0
    earlyPicksLost := earlyPicksLost
    pattern := pattern
    strength := strength }

/-! Specification-side definitions, written from the wording of the
claims so that the embedded code can be compared against them, and the
concrete inputs used by the theorems. -/

/-- The five-rule first-match-wins chain of the positional-need
classifier exactly as the specification words it: desperation by add
volume, then the low-bar desperation path, then thin, then hoarding,
then stable. -/
def specFiveRuleChain (desperationTrigger thinBoundary hoardingBoundary
    totalCount addCount : ℤ) : PositionalState :=
  if desperationTrigger ≤ addCount then .DESPERATE
  else if totalCount < thinBoundary - 1 ∧ 2 ≤ addCount then .DESPERATE
  else if totalCount < thinBoundary then .THIN
  else if hoardingBoundary ≤ totalCount then .HOARDING
  else .STABLE

/-- Threshold formulas of the amended claim C3: desperation trigger is
the floor (not the round) of 3 times the scarcity multiplier, the thin
boundary is the recommended depth and the hoarding boundary is the
ceiling of 1.5 times the recommended depth. -/
def specAmendedThresholds (needs : PositionalRequirement) : PositionThresholds :=
  { desperateAdds := ⌊(3 : ℚ) * needs.scarcityMultiplier⌋
    thinBenchCount := needs.recommendedDepth
    hoardingBenchCount := ⌈(needs.recommendedDepth : ℚ) * 1.5⌉ }

/-- Net change of near-term picks (the next two seasons) between the
original and the current pick set. -/
def futureWindowCount (picks : List DraftPick) (currentYear : ℤ) : ℤ :=
  ((picks.filter (fun p => p.season ≤ currentYear + 2 ∧ currentYear < p.season)).length : ℤ)

/-- Count of early-round picks (rounds 1-2, any season). -/
def earlyCount (picks : List DraftPick) : ℤ :=
  ((picks.filter (fun p => p.round ≤ 2)).length : ℤ)

/-- Trading pattern as the amended claim C8 words it, over the signed
near-term and early-round deltas. -/
def specDraftPattern (futureDelta earlyDelta : ℤ) : TradingPattern :=
  if 2 ≤ futureDelta ∨ 1 ≤ earlyDelta then .accumulating
  else if futureDelta ≤ -2 ∨ earlyDelta ≤ -1 then .selling
  else .balanced

/-- Trading strength as the amended claim C8 words it: strong needs a
near-term delta of at least 3 in the direction of the pattern; a
balanced pattern is always weak. -/
def specDraftStrength (futureDelta earlyDelta : ℤ) : TradingStrength :=
  if specDraftPattern futureDelta earlyDelta = .accumulating then
    if 3 ≤ futureDelta then .strong else .moderate
  else if specDraftPattern futureDelta earlyDelta = .selling then
    if futureDelta ≤ -3 then .strong else .moderate
  else .weak

/-- The list a caller of generateTradeIdeas receives, empty on the
lookup-failure path. -/
def ideasOrEmpty (result : Except String (List TradeIdea)) : List TradeIdea :=
  match result with
  | .ok ideas => ideas
  | .error _ => []

/-- Signals of a team with 5 recent moves, a rebuild-shaped age pattern
and 25 days since the last transaction. -/
def c1FailingSignals : StrategySignals :=
  { totalMoves30d := 5
    avgAgeAdded30d := some 22
    avgAgeDropped30d := some 28
    rosterAvgAge := none
    daysSinceLastActivity := some 25 }

/-- Signals of a team with one move, no known ages and 300 days since
the last transaction. -/
def c5CounterSignals : StrategySignals :=
  { totalMoves30d := 1
    avgAgeAdded30d := none
    avgAgeDropped30d := none
    rosterAvgAge := none
    daysSinceLastActivity := some 300 }

/-- A 14-team league with a standard roster, used to compute the RB
scarcity multiplier 1.3. -/
def raw14 : RawLeague :=
  { numTeams := 14
    rosterPositions := some ["QB", "RB", "RB", "WR", "WR", "TE", "FLEX", "BN", "BN"]
    scoringSettings := some []
    rosterSize := none
    taxiSlots := none
    reserveSlots := none }

/-- Parsed configuration of the 14-team league. -/
def cfg14 : LeagueConfig := parseLeagueConfig raw14

/-- A league whose only flex slot is a WR/RB-only WRRB_FLEX slot and
that has no SUPER_FLEX slot at all. -/
def rawWrrb : RawLeague :=
  { numTeams := 12
    rosterPositions := some ["QB", "RB", "WR", "WRRB_FLEX"]
    scoringSettings := some []
    rosterSize := none
    taxiSlots := none
    reserveSlots := none }

/-- A 10-team standard-scoring league with three WR starters and one RB
starter, giving WR a high and RB a low position-value multiplier. -/
def rawStd : RawLeague :=
  { numTeams := 10
    rosterPositions := some ["WR", "WR", "WR", "RB"]
    scoringSettings := some []
    rosterSize := none
    taxiSlots := none
    reserveSlots := none }

/-- Parsed configuration of the 10-team league. -/
def cfgStd : LeagueConfig := parseLeagueConfig rawStd

/-- Requesting team of the mutual-surplus scenario: HOARDING at WR,
THIN at RB. -/
def requesterTeam : LeagueTeam :=
  { id := "team1"
    displayName := "Team One"
    teamName := none
    strategyLabel := none
    positionalProfile := some
      [("QB", .STABLE), ("RB", .THIN), ("WR", .HOARDING), ("TE", .STABLE)] }

/-- Counterpart team of the mutual-surplus scenario: THIN at WR,
HOARDING at RB. -/
def counterpartTeam : LeagueTeam :=
  { id := "team2"
    displayName := "Team Two"
    teamName := none
    strategyLabel := none
    positionalProfile := some
      [("QB", .STABLE), ("RB", .HOARDING), ("WR", .THIN), ("TE", .STABLE)] }

/-- Original pick set for the C8 counterexample: three near-term
third-round picks. -/
def c8Original : List DraftPick := [⟨2026, 3⟩, ⟨2026, 3⟩, ⟨2026, 3⟩]

/-- Current pick set for the C8 counterexample: one far-future
first-round pick. -/
def c8Current : List DraftPick := [⟨2028, 1⟩]

/-- A team row that exists but has never been profiled. -/
def unprofiledTeam : LeagueTeam :=
  { id := "team9"
    displayName := "Team Nine"
    teamName := none
    strategyLabel := none
    positionalProfile := none }

/-! Helper lemmas. -/

lemma flatMap_eq_flatMap_filter {α β : Type} (p : α → Bool) (f : α → List β)
    (h : ∀ a, p a = false → f a = []) :
    ∀ l : List α, l.flatMap f = (l.filter p).flatMap f := by
  intro l
  induction l with
  | nil => rfl
  | cons a l ih =>
    by_cases hp : p a = true
    · simp [List.filter_cons, hp, ih]
    · have hp0 : p a = false := by simpa using hp
      simp [List.filter_cons, hp0, h a hp0, ih]

lemma adjustConfidenceForLeague_nonneg (c : ℚ) (hc : 0 ≤ c)
    (myGivePos myGetPos : String) (leagueConfig : Option LeagueConfig) :
    0 ≤ adjustConfidenceForLeague c myGivePos myGetPos leagueConfig := by
  cases leagueConfig with
  | none => exact hc
  | some config =>
    cases hg : toPos4 myGivePos with
    | none => simpa [adjustConfidenceForLeague, hg] using hc
    | some givePos =>
      simp only [adjustConfidenceForLeague, hg]
      split_ifs <;>
        first
          | exact hc
          | positivity

lemma buildTradeIdea_confidence_nonneg (myTeam otherTeam : LeagueTeam)
    (myGivePos myGetPos : String) (theirNeedState myNeedState : PositionalState)
    (lesserConfidence : Bool) (leagueConfig : Option LeagueConfig) :
    0 ≤ (buildTradeIdea myTeam otherTeam myGivePos myGetPos theirNeedState
      myNeedState lesserConfidence leagueConfig).confidence := by
  unfold buildTradeIdea
  simp only
  have hboost : (0 : ℚ) ≤ if theirNeedState = .DESPERATE then
      (if lesserConfidence then (0.7 : ℚ) else 0.85) + 0.1
    else (if lesserConfidence then (0.7 : ℚ) else 0.85) := by
    split_ifs <;> norm_num
  have hadj := adjustConfidenceForLeague_nonneg _ hboost myGivePos myGetPos leagueConfig
  have h95 : (0 : ℚ) ≤ 0.95 := by norm_num
  exact le_min hadj h95

lemma buildTradeIdea_confidence_le (myTeam otherTeam : LeagueTeam)
    (myGivePos myGetPos : String) (theirNeedState myNeedState : PositionalState)
    (lesserConfidence : Bool) (leagueConfig : Option LeagueConfig) :
    (buildTradeIdea myTeam otherTeam myGivePos myGetPos theirNeedState
      myNeedState lesserConfidence leagueConfig).confidence ≤ 0.95 := by
  unfold buildTradeIdea
  simp only
  exact min_le_right _ _

lemma mem_ideasForCounterpart_eq_build {x : TradeIdea}
    (myTeam otherTeam : LeagueTeam)
    (myNeeds theirNeeds : List (String × PositionalState))
    (mySurplus myNeedsList : List String) (leagueConfig : Option LeagueConfig)
    (hx : x ∈ ideasForCounterpart myTeam otherTeam myNeeds theirNeeds
      mySurplus myNeedsList leagueConfig) :
    ∃ (g p : String) (tns mns : PositionalState) (lc : Bool),
      x = buildTradeIdea myTeam otherTeam g p tns mns lc leagueConfig := by
  unfold ideasForCounterpart at hx
  rw [List.mem_flatMap] at hx
  obtain ⟨g, hg, hx⟩ := hx
  simp only at hx
  cases hl : theirNeeds.lookup g with
  | none => rw [hl] at hx; simp at hx
  | some theirNeed =>
    simp only [hl] at hx
    by_cases hcond : theirNeed = .DESPERATE ∨ theirNeed = .THIN
    · rw [if_pos hcond] at hx
      rw [List.mem_append] at hx
      rcases hx with hx | hx
      · rw [List.mem_flatMap] at hx
        obtain ⟨e, he, hx⟩ := hx
        by_cases hc2 : e.2 = .HOARDING ∧ e.1 ∈ myNeedsList
        · rw [if_pos hc2, List.mem_singleton] at hx
          exact ⟨g, e.1, theirNeed, _, false, hx⟩
        · rw [if_neg hc2] at hx
          simp at hx
      · by_cases hdesp : theirNeed = .DESPERATE
        · rw [if_pos hdesp] at hx
          rw [List.mem_flatMap] at hx
          obtain ⟨p, hp, hx⟩ := hx
          by_cases hne : p ≠ g
          · rw [if_pos hne, List.mem_singleton] at hx
            exact ⟨g, p, theirNeed, _, true, hx⟩
          · rw [if_neg hne] at hx
            simp at hx
        · rw [if_neg hdesp] at hx
          simp at hx
    · rw [if_neg hcond] at hx
      simp at hx

lemma pairwise_confidenceGE_filter_eq (c : ℚ) (l : List TradeIdea) :
    (l.filter (fun i => i.confidence = c)).Pairwise confidenceGE := by
  apply List.pairwise_of_forall_mem_list
  intro a ha b hb
  rw [List.mem_filter] at ha hb
  have ha2 : a.confidence = c := by simpa using ha.2
  have hb2 : b.confidence = c := by simpa using hb.2
  unfold confidenceGE
  rw [ha2, hb2]

lemma insertionSort_filter_confidence (c : ℚ) (l : List TradeIdea) :
    (List.insertionSort confidenceGE l).filter (fun i => i.confidence = c) =
      l.filter (fun i => i.confidence = c) := by
  have hsub : (l.filter (fun i => i.confidence = c)).Sublist
      (List.insertionSort confidenceGE l) :=
    List.sublist_insertionSort (pairwise_confidenceGE_filter_eq c l)
      (List.filter_sublist l)
  have h2 := List.Sublist.filter (fun i => i.confidence = c) hsub
  rw [List.filter_filter] at h2
  simp only [Bool.and_self] at h2
  have hlen : ((List.insertionSort confidenceGE l).filter
        (fun i => i.confidence = c)).length =
      (l.filter (fun i => i.confidence = c)).length :=
    ((List.perm_insertionSort confidenceGE l).filter _).length_eq
  exact (h2.eq_of_length hlen.symm).symm

lemma filter_take_exists_rest (p : TradeIdea → Bool) (n : ℕ) (l : List TradeIdea) :
    ∃ rest, (l.take n).filter p ++ rest = l.filter p :=
  ⟨(l.drop n).filter p, by rw [← List.filter_append, List.take_append_drop]⟩

lemma discoveredIdeas_filter_profiled (myTeam : LeagueTeam)
    (myNeeds : List (String × PositionalState)) (otherTeams : List LeagueTeam)
    (leagueConfig : Option LeagueConfig) :
    discoveredIdeas myTeam myNeeds otherTeams leagueConfig =
      discoveredIdeas myTeam myNeeds
        (otherTeams.filter (fun t => t.positionalProfile.isSome)) leagueConfig := by
  unfold discoveredIdeas
  rw [flatMap_eq_flatMap_filter (fun t => t.positionalProfile.isSome) _ ?_ otherTeams]
  intro a ha
  cases hp : a.positionalProfile with
  | none => simp [hp]
  | some tn => simp [hp] at ha

/-! Claim theorems. -/

/-- C1: at the failing input (5 moves in the window, average age added
22, average age dropped 28, 25 days since the last transaction) the
code returns REBUILD with confidence 0.95 instead of the INACTIVE that
the claim, the function doc comment and the unit tests require: the
implementation only goes INACTIVE at 180 or 240 days. -/
theorem C1_inactivity_rule_eval :
    daysAtLeast c1FailingSignals.daysSinceLastActivity 21 ∧
    classifyTeamStrategy c1FailingSignals =
      { label := .REBUILD, confidence := 0.95 } ∧
    (classifyTeamStrategy c1FailingSignals).label ≠ .INACTIVE := by
  with_unfolding_all decide

/-- C2 counterexample: in the 10-team league the WR multiplier 1.2
exceeds 1.2 times the RB multiplier 0.8, so the mutual WR-for-RB idea
is scaled to 0.85 times 0.95 = 0.8075 — not the bare base value, and
below the 0.85 the claim requires for the mutual scenario. -/
theorem C2_counterexample :
    generateTradeIdeas (some requesterTeam) [counterpartTeam] (some cfgStd) =
      .ok [{ targetTeamId := "team2", targetTeamName := "Team Two",
             suggestedGivePosition := "WR", suggestedGetPosition := "RB",
             confidence := 323/400 }] ∧
    ((323/400 : ℚ) ≠ 0.85 ∧ (323/400 : ℚ) < 0.85) := by
  with_unfolding_all decide

/-- C2 amended: with no league configuration the confidence is exactly
the base value (0.85 mutual, 0.7 non-mutual) plus 0.1 for a DESPERATE
counterpart need, clamped to 0.95, and the mutual WR/RB scenario then
yields exactly one idea with give WR, get RB and confidence 0.85; with
a configuration the position-value comparison may additionally scale
the confidence before the clamp. -/
theorem C2_confidence_formula :
    (∀ (myTeam otherTeam : LeagueTeam) (myGivePos myGetPos : String)
        (theirNeedState myNeedState : PositionalState) (lesserConfidence : Bool),
      (buildTradeIdea myTeam otherTeam myGivePos myGetPos theirNeedState
          myNeedState lesserConfidence none).confidence =
        min ((if lesserConfidence then (0.7 : ℚ) else 0.85) +
          (if theirNeedState = .DESPERATE then 0.1 else 0)) 0.95) ∧
    generateTradeIdeas (some requesterTeam) [counterpartTeam] none =
      .ok [{ targetTeamId := "team2", targetTeamName := "Team Two",
             suggestedGivePosition := "WR", suggestedGetPosition := "RB",
             confidence := 0.85 }] := by
  constructor
  · intro myTeam otherTeam myGivePos myGetPos theirNeedState myNeedState lesserConfidence
    unfold buildTradeIdea adjustConfidenceForLeague
    cases lesserConfidence <;> cases theirNeedState <;> simp
  · with_unfolding_all decide

/-- C3 counterexample: for RB in the 14-team league the scarcity
multiplier is 1.3, yet the desperation trigger is 3, not
round(3 times 1.3) = 4 as the claim states. -/
theorem C3_counterexample :
    cfg14.positionalNeeds.RB.scarcityMultiplier = 1.3 ∧
    (getPositionalThresholds .RB cfg14).desperateAdds = 3 ∧
    round ((3 : ℚ) * 1.3) = 4 ∧
    (getPositionalThresholds .RB cfg14).desperateAdds ≠ round ((3 : ℚ) * 1.3) := by
  with_unfolding_all decide

/-- C3 amended: the thresholds use the floor of 3 times the scarcity
multiplier, the recommended depth and the ceiling of 1.5 times the
recommended depth; for RB in the 14-team league the trigger is
floor(3.9) = 3. -/
theorem C3_thresholds_formula :
    (∀ (position : Pos4) (config : LeagueConfig),
      getPositionalThresholds position config =
        specAmendedThresholds (config.positionalNeeds.get position)) ∧
    ((getPositionalThresholds .RB cfg14).desperateAdds = ⌊(3 : ℚ) * 1.3⌋ ∧
      ⌊(3 : ℚ) * 1.3⌋ = 3) :=
  ⟨fun _ _ => rfl, by with_unfolding_all decide⟩

/-- C4: a league whose roster has one WRRB_FLEX slot and no SUPER_FLEX
slot is parsed with SUPERFLEX starter count 1 and isSuperflex true,
although a WRRB_FLEX slot cannot hold a QB and the field is documented
as counting QB/RB/WR/TE slots. -/
theorem C4_superflex_count_eval :
    countEq (rawWrrb.rosterPositions.getD []) "SUPER_FLEX" = 0 ∧
    (parseLeagueConfig rawWrrb).starters.SUPERFLEX = 1 ∧
    (parseLeagueConfig rawWrrb).scoringFormat.isSuperflex = true := by
  with_unfolding_all decide

/-- C5 counterexample: one move in the window and both average ages
unknown, yet the classifier returns INACTIVE 0.8 because the
low-activity rule fires first, not TINKER 0.5. -/
theorem C5_counterexample :
    1 ≤ c5CounterSignals.totalMoves30d ∧
    c5CounterSignals.avgAgeAdded30d = none ∧
    c5CounterSignals.avgAgeDropped30d = none ∧
    classifyTeamStrategy c5CounterSignals =
      { label := .INACTIVE, confidence := 0.8 } ∧
    (classifyTeamStrategy c5CounterSignals).label ≠ .TINKER := by
  with_unfolding_all decide

/-- C5 amended: when at least one move happened, both average ages are
unknown and the low-activity INACTIVE rule does not fire, the classifier
returns TINKER with confidence exactly 0.5. -/
theorem C5_tinker_unknown_ages (s : StrategySignals)
    (h1 : 1 ≤ s.totalMoves30d)
    (h2 : s.avgAgeAdded30d = none)
    (h3 : s.avgAgeDropped30d = none)
    (h4 : ¬(s.totalMoves30d ≤ 2 ∧ daysAtLeast s.daysSinceLastActivity 240)) :
    classifyTeamStrategy s = { label := .TINKER, confidence := 0.5 } := by
  have hm : ¬s.totalMoves30d = 0 := by omega
  unfold classifyTeamStrategy
  rw [if_neg hm, if_neg h4, h2, h3]

/-- Witness for C5: three moves, no known ages, recent activity. -/
theorem C5_tinker_unknown_ages_witness :
    classifyTeamStrategy
      { totalMoves30d := 3, avgAgeAdded30d := none, avgAgeDropped30d := none
        rosterAvgAge := none, daysSinceLastActivity := some 2 } =
      { label := .TINKER, confidence := 0.5 } :=
  C5_tinker_unknown_ages _ (by decide) rfl rfl (by decide)

/-- C6: classifyPositionState is exactly the five-rule first-match-wins
chain of the specification over the resolved thresholds, and in
particular RB with 2 starters, empty bench and 3 recent adds is
DESPERATE by rule 1. -/
theorem C6_five_rule_chain :
    (∀ (inputs : PositionalInputs) (leagueConfig : Option LeagueConfig),
      classifyPositionState inputs leagueConfig =
        specFiveRuleChain (resolvedThresholds inputs leagueConfig).desperateAdds
          (resolvedThresholds inputs leagueConfig).thinBenchCount
          (resolvedThresholds inputs leagueConfig).hoardingBenchCount
          (inputs.starters + inputs.bench) inputs.waiverAdds21d) ∧
    classifyPositionState
      { position := "RB", starters := 2, bench := 0, waiverAdds21d := 3 } none =
      .DESPERATE :=
  ⟨fun _ _ => rfl, by decide⟩

/-- C7: for every input the returned idea list has at most 10 entries,
is non-increasing in confidence, keeps ties in discovery order (for
every confidence value, the returned ideas carrying it are an initial
run, in order, of the discovery-order ideas carrying it), and every
confidence lies in [0, 0.95]. -/
theorem C7_sorted_capped_bounded (myTeamRow : Option LeagueTeam)
    (otherTeams : List LeagueTeam) (leagueConfig : Option LeagueConfig) :
    (ideasOrEmpty (generateTradeIdeas myTeamRow otherTeams leagueConfig)).length ≤ 10 ∧
    List.Pairwise confidenceGE
      (ideasOrEmpty (generateTradeIdeas myTeamRow otherTeams leagueConfig)) ∧
    (∀ c : ℚ, ∃ rest,
      (ideasOrEmpty (generateTradeIdeas myTeamRow otherTeams leagueConfig)).filter
          (fun i => i.confidence = c) ++ rest =
        (discoveryOrder myTeamRow otherTeams leagueConfig).filter
          (fun i => i.confidence = c)) ∧
    (ideasOrEmpty (generateTradeIdeas myTeamRow otherTeams leagueConfig)).all
      (fun idea => decide (0 ≤ idea.confidence ∧ idea.confidence ≤ 0.95)) = true := by
  cases myTeamRow with
  | none =>
    refine ⟨by simp [generateTradeIdeas, ideasOrEmpty],
      by simp [generateTradeIdeas, ideasOrEmpty], ?_,
      by simp [generateTradeIdeas, ideasOrEmpty]⟩
    intro c
    exact ⟨[], by simp [generateTradeIdeas, ideasOrEmpty, discoveryOrder]⟩
  | some myTeam =>
    cases hprof : myTeam.positionalProfile with
    | none =>
      refine ⟨?_, ?_, ?_, ?_⟩
      · simp [generateTradeIdeas, hprof, ideasOrEmpty]
      · simp [generateTradeIdeas, hprof, ideasOrEmpty]
      · intro c
        exact ⟨[], by simp [generateTradeIdeas, hprof, ideasOrEmpty, discoveryOrder]⟩
      · simp [generateTradeIdeas, hprof, ideasOrEmpty]
    | some myNeeds =>
      have hres : ideasOrEmpty (generateTradeIdeas (some myTeam) otherTeams leagueConfig) =
          (List.insertionSort confidenceGE
            (discoveredIdeas myTeam myNeeds otherTeams leagueConfig)).take 10 := by
        unfold generateTradeIdeas
        simp only [hprof]
        rfl
      have hdisc : discoveryOrder (some myTeam) otherTeams leagueConfig =
          discoveredIdeas myTeam myNeeds otherTeams leagueConfig := by
        unfold discoveryOrder
        simp only [hprof]
      rw [hres, hdisc]
      refine ⟨List.length_take_le _ _, ?_, ?_, ?_⟩
      · exact List.Pairwise.sublist (List.take_sublist _ _)
          (List.sorted_insertionSort confidenceGE _)
      · intro c
        obtain ⟨rest, hrest⟩ := filter_take_exists_rest (fun i => i.confidence = c) 10
          (List.insertionSort confidenceGE
            (discoveredIdeas myTeam myNeeds otherTeams leagueConfig))
        rw [insertionSort_filter_confidence] at hrest
        exact ⟨rest, hrest⟩
      · rw [List.all_eq_true]
        intro idea hmem
        have h1 : idea ∈ List.insertionSort confidenceGE
            (discoveredIdeas myTeam myNeeds otherTeams leagueConfig) :=
          List.take_subset _ _ hmem
        have h2 : idea ∈ discoveredIdeas myTeam myNeeds otherTeams leagueConfig :=
          (List.perm_insertionSort confidenceGE _).subset h1
        unfold discoveredIdeas at h2
        rw [List.mem_flatMap] at h2
        obtain ⟨otherTeam, hot, h2⟩ := h2
        rw [decide_eq_true_eq]
        cases hp : otherTeam.positionalProfile with
        | none => rw [hp] at h2; simp at h2
        | some theirNeeds =>
          rw [hp] at h2
          simp only at h2
          obtain ⟨g, p, tns, mns, lc, hxeq⟩ :=
            mem_ideasForCounterpart_eq_build myTeam otherTeam myNeeds theirNeeds
              (surplusPositions myNeeds) (needPositions myNeeds) leagueConfig h2
          rw [hxeq]
          exact ⟨buildTradeIdea_confidence_nonneg _ _ _ _ _ _ _ _,
            buildTradeIdea_confidence_le _ _ _ _ _ _ _ _⟩

/-- C8 counterexample: losing three near-term picks while gaining one
early pick classifies as accumulating with strength moderate, although
the near-term delta magnitude is 3, which the claim says must be
strong. -/
theorem C8_counterexample :
    (analyzeDraftPickTrading c8Original c8Current 2025).pattern = .accumulating ∧
    (analyzeDraftPickTrading c8Original c8Current 2025).futurePicksLost = 3 ∧
    (analyzeDraftPickTrading c8Original c8Current 2025).strength = .moderate ∧
    (analyzeDraftPickTrading c8Original c8Current 2025).strength ≠ .strong := by
  decide

/-- C8 amended: pattern and strength follow the signed near-term and
early-round deltas: accumulating on a near-term gain of 2 or an early
gain of 1, selling on the mirrored losses, balanced otherwise; strength
is strong only when the near-term delta reaches 3 in the direction of
the pattern, and balanced is always weak. -/
theorem C8_pattern_strength (originalPicks currentPicks : List DraftPick)
    (currentYear : ℤ) :
    (analyzeDraftPickTrading originalPicks currentPicks currentYear).pattern =
      specDraftPattern
        (futureWindowCount currentPicks currentYear -
          futureWindowCount originalPicks currentYear)
        (earlyCount currentPicks - earlyCount originalPicks) ∧
    (analyzeDraftPickTrading originalPicks currentPicks currentYear).strength =
      specDraftStrength
        (futureWindowCount currentPicks currentYear -
          futureWindowCount originalPicks currentYear)
        (earlyCount currentPicks - earlyCount originalPicks) := by
  unfold analyzeDraftPickTrading specDraftPattern specDraftStrength
    futureWindowCount earlyCount
  set A : ℤ := ((currentPicks.filter
    (fun p => p.season ≤ currentYear + 2 ∧ currentYear < p.season)).length : ℤ) -
    ((originalPicks.filter
      (fun p => p.season ≤ currentYear + 2 ∧ currentYear < p.season)).length : ℤ) with hA
  set B : ℤ := ((currentPicks.filter (fun p => p.round ≤ 2)).length : ℤ) -
    ((originalPicks.filter (fun p => p.round ≤ 2)).length : ℤ) with hB
  have h2 : (2 ≤ (if A < 0 then -A else 0)) ↔ A ≤ -2 := by split_ifs <;> omega
  have h1 : (1 ≤ (if B < 0 then -B else 0)) ↔ B ≤ -1 := by split_ifs <;> omega
  have h3 : (3 ≤ (if A < 0 then -A else 0)) ↔ A ≤ -3 := by split_ifs <;> omega
  simp only [h2, h1, h3]
  exact ⟨trivial, rfl⟩

/-- C9: a missing requested team is reported as the lookup failure,
while counterpart teams without a positional profile are skipped — the
result over the full team list equals the result over the profiled
teams only, and a present requester never produces an error. -/
theorem C9_lookup_failure_and_skip :
    (∀ (otherTeams : List LeagueTeam) (leagueConfig : Option LeagueConfig),
      generateTradeIdeas none otherTeams leagueConfig = .error "Team not found") ∧
    (∀ (myTeam : LeagueTeam) (otherTeams : List LeagueTeam)
        (leagueConfig : Option LeagueConfig),
      generateTradeIdeas (some myTeam) otherTeams leagueConfig =
        generateTradeIdeas (some myTeam)
          (otherTeams.filter (fun t => t.positionalProfile.isSome)) leagueConfig) ∧
    (∀ (myTeam : LeagueTeam) (otherTeams : List LeagueTeam)
        (leagueConfig : Option LeagueConfig),
      generateTradeIdeas (some myTeam) otherTeams leagueConfig =
        .ok (ideasOrEmpty (generateTradeIdeas (some myTeam) otherTeams leagueConfig))) := by
  refine ⟨fun _ _ => rfl, ?_, ?_⟩
  · intro myTeam otherTeams leagueConfig
    cases hprof : myTeam.positionalProfile with
    | none =>
      unfold generateTradeIdeas
      simp only [hprof]
    | some myNeeds =>
      unfold generateTradeIdeas
      simp only [hprof]
      rw [discoveredIdeas_filter_profiled]
  · intro myTeam otherTeams leagueConfig
    cases hprof : myTeam.positionalProfile with
    | none =>
      unfold generateTradeIdeas
      simp only [hprof]
      rfl
    | some myNeeds =>
      unfold generateTradeIdeas
      simp only [hprof]
      rfl

/-- C10: a requester that exists but has no positional profile gets the
empty idea list, not an error and not a defaulted profile. -/
theorem C10_requester_without_profile (myTeam : LeagueTeam)
    (otherTeams : List LeagueTeam) (leagueConfig : Option LeagueConfig)
    (h : myTeam.positionalProfile = none) :
    generateTradeIdeas (some myTeam) otherTeams leagueConfig = .ok [] := by
  unfold generateTradeIdeas
  simp only [h]

/-- Witness for C10: an unprofiled requester against one counterpart. -/
theorem C10_requester_without_profile_witness :
    generateTradeIdeas (some unprofiledTeam) [counterpartTeam] none = .ok [] :=
  C10_requester_without_profile unprofiledTeam [counterpartTeam] none rfl

end Dynasty
